import Mathlib

/-!
Verification of the resilient data-fetch layer of `src/app.py`: the
retry/backoff/fallback loop `fetch_stock_data_with_retry`, the fallback window
derivation of `try_alternative_download`, the response cache
(`is_cache_valid`, `load_cache`, the store step of the series view), the
rate-limiting block guarding the series fetch, and `calcular_variacao`.

Timestamps, durations and prices are modelled as `ℚ` (Python floats are used
only for wall-clock arithmetic and price arithmetic here).  A pandas DataFrame
of bars is modelled as a `List ℚ` of closing prices — the fetch loop only ever
tests emptiness, and `calcular_variacao` only reads first/last close.
-/

/-- `REQUEST_DELAY = 2` seconds (src/app.py line 18). -/
def REQUEST_DELAY : ℚ := 2

/-- `CACHE_DURATION = 300` seconds (src/app.py line 17). -/
def CACHE_DURATION : ℚ := 300

/-- Character-list prefix test, building block for Python's `in` on strings. -/
def chrStarts : List Char → List Char → Bool
  | [], _ => true
  | _ :: _, [] => false
  | a :: as, b :: bs => a == b && chrStarts as bs

/-- `chrWithin needle hay`: does `needle` occur contiguously inside `hay`? -/
def chrWithin (needle : List Char) : List Char → Bool
  | [] => chrStarts needle []
  | b :: bs => chrStarts needle (b :: bs) || chrWithin needle bs

/-- Python's `needle in hay` substring test on strings. -/
def containsSub (hay needle : String) : Bool :=
  chrWithin needle.toList hay.toList

/-- Error classification of src/app.py line 106: `"Crumb" in error_msg or
"Unauthorized" in error_msg`. -/
def isAuthErr (msg : String) : Bool :=
  containsSub msg "Crumb" || containsSub msg "Unauthorized"

/-- Error classification of src/app.py line 113: `"429" in error_msg or
"Too Many Requests" in error_msg`. -/
def isRateErr (msg : String) : Bool :=
  containsSub msg "429" || containsSub msg "Too Many Requests"

/-- Outcome of one call of the primary strategy `ticker.history` at a given
attempt: either a returned frame (list of bars, possibly empty) or a raised
exception carrying its message. -/
inductive PrimOutcome where
  | ok (df : List ℚ)
  | exn (msg : String)
deriving DecidableEq

/-- Outcome of one call of the secondary strategy `try_alternative_download`:
it never raises, returning a frame (possibly empty) and an optional error
string (src/app.py lines 124-165). -/
structure AltOutcome where
  df : List ℚ
  err : Option String
deriving DecidableEq

/-- Observable events of one run of `fetch_stock_data_with_retry`:
`sleep` is a `time.sleep` executed in the retry loop body (backoff at line 83
or the steeper 429 wait at line 116), `primary n` is the `ticker.history` call
of attempt `n` (line 86), `altSleep` is the `time.sleep(REQUEST_DELAY * 0.5)`
inside `try_alternative_download` (line 145), and `alt n` is the `yf.download`
call of the secondary strategy invoked during attempt `n` (line 148). -/
inductive Ev where
  | sleep (secs : ℚ)
  | primary (attempt : ℕ)
  | altSleep (secs : ℚ)
  | alt (attempt : ℕ)
deriving DecidableEq

/-- The two events of one secondary-strategy invocation during attempt `n`:
its internal half-delay sleep followed by the `yf.download` call. -/
def altEvents (attempt : ℕ) : List Ev :=
  [Ev.altSleep (REQUEST_DELAY * (1 / 2)), Ev.alt attempt]

/-- The diagnostic of src/app.py line 120:
`f"Erro após {max_retries} tentativas: {error_msg}"`. -/
def errAfter (maxRetries : ℕ) (msg : String) : String :=
  "Erro após " ++ toString maxRetries ++ " tentativas: " ++ msg

/-- The diagnostic of src/app.py line 122, returned when the loop exhausts
all attempts without an earlier `return`. -/
def exhaustedMsg : String :=
  "Não foi possível obter dados após múltiplas tentativas"

/-- One iteration of the `for attempt in range(max_retries)` loop of
`fetch_stock_data_with_retry` (src/app.py lines 78-120), continued
recursively; `fuel` is the number of remaining iterations
(`maxRetries - attempt`).  Returns the event trace together with the returned
`(df, error)` pair.  The translation is branch-for-branch:
line 81-83 (backoff sleep when `attempt > 0`), line 86 (primary call),
line 93-94 (non-empty return), line 97-100 (fallback on empty result at the
first or last attempt), line 106-111 (immediate fallback on auth errors,
`continue` when the fallback is empty and attempts remain, otherwise fall
through to the final return), line 113-117 (steeper 429 sleep then
`continue`), line 118-119 (generic `continue`), line 120 (per-message error
return) and line 122 (exhaustion return). -/
def fetchGo (primary : ℕ → PrimOutcome) (alt : ℕ → AltOutcome) (maxRetries : ℕ) :
    ℕ → ℕ → List Ev × List ℚ × Option String
  | _, 0 => ([], [], some exhaustedMsg)
  | attempt, fuel + 1 =>
    let pre : List Ev :=
      (if 0 < attempt then [Ev.sleep (REQUEST_DELAY * 2 ^ attempt)] else [])
        ++ [Ev.primary attempt]
    match primary attempt with
    | PrimOutcome.ok df =>
      if df.isEmpty then
        if attempt = 0 ∨ attempt = maxRetries - 1 then
          if (alt attempt).df.isEmpty then
            let r := fetchGo primary alt maxRetries (attempt + 1) fuel
            (pre ++ altEvents attempt ++ r.1, r.2)
          else (pre ++ altEvents attempt, (alt attempt).df, none)
        else
          let r := fetchGo primary alt maxRetries (attempt + 1) fuel
          (pre ++ r.1, r.2)
      else (pre, df, none)
    | PrimOutcome.exn msg =>
      if isAuthErr msg then
        if (alt attempt).df.isEmpty then
          if attempt < maxRetries - 1 then
            let r := fetchGo primary alt maxRetries (attempt + 1) fuel
            (pre ++ altEvents attempt ++ r.1, r.2)
          else (pre ++ altEvents attempt, [], some (errAfter maxRetries msg))
        else (pre ++ altEvents attempt, (alt attempt).df, none)
      else if isRateErr msg then
        if attempt < maxRetries - 1 then
          let r := fetchGo primary alt maxRetries (attempt + 1) fuel
          (pre ++ [Ev.sleep (REQUEST_DELAY * 2 ^ (attempt + 2))] ++ r.1, r.2)
        else (pre, [], some (errAfter maxRetries msg))
      else if attempt < maxRetries - 1 then
        let r := fetchGo primary alt maxRetries (attempt + 1) fuel
        (pre ++ r.1, r.2)
      else (pre, [], some (errAfter maxRetries msg))

/-- `fetch_stock_data_with_retry` (src/app.py lines 76-122), as a function of
the behaviour of the two strategies (indexed by attempt number) and of
`max_retries` (the call site at line 760 uses the default 3). -/
def fetch_stock_data_with_retry (primary : ℕ → PrimOutcome) (alt : ℕ → AltOutcome)
    (maxRetries : ℕ) : List Ev × List ℚ × Option String :=
  fetchGo primary alt maxRetries 0 maxRetries

/-- Is an event a primary-strategy call? -/
def isPrimEv : Ev → Bool
  | Ev.primary _ => true
  | _ => false

/-- Is an event a secondary-strategy (`yf.download`) call? -/
def isAltEv : Ev → Bool
  | Ev.alt _ => true
  | _ => false

/-- Total sleep time accumulated before each primary call of a trace:
`waits tr acc` lists, for every `Ev.primary` event in order, the sum of all
sleep durations since the previous primary call (`acc` seeds the sum carried
into the first one). -/
def waits : List Ev → ℚ → List ℚ
  | [], _ => []
  | Ev.sleep q :: rest, acc => waits rest (acc + q)
  | Ev.altSleep q :: rest, acc => waits rest (acc + q)
  | Ev.primary _ :: rest, acc => acc :: waits rest 0
  | Ev.alt _ :: rest, acc => waits rest acc

/-- Start of the date window computed by `try_alternative_download`
(src/app.py lines 127-143): every branch is either
`end_date - timedelta(days = k)` or `datetime(end_date.year, 1, 1)`. -/
inductive FallbackStart where
  | daysBeforeEnd (n : ℕ)
  | januaryFirstOfEndYear
deriving DecidableEq

/-- The start-date selection of `try_alternative_download`
(src/app.py lines 130-143), branch for branch. -/
def try_alternative_download_window (period_value : String) : FallbackStart :=
  if period_value = "7d" then FallbackStart.daysBeforeEnd 7
  else if period_value = "1mo" then FallbackStart.daysBeforeEnd 30
  else if period_value = "ytd" then FallbackStart.januaryFirstOfEndYear
  else if period_value = "1y" then FallbackStart.daysBeforeEnd 365
  else if period_value = "3y" then FallbackStart.daysBeforeEnd (365 * 3)
  else if period_value = "5y" then FallbackStart.daysBeforeEnd (365 * 5)
  else FallbackStart.daysBeforeEnd 30

/-- The full `(start_date, end_date)` window of `try_alternative_download`:
`end_date = datetime.now()` (src/app.py line 127) and the start as above. -/
def try_alternative_download_dates (now : ℚ) (period_value : String) :
    FallbackStart × ℚ :=
  (try_alternative_download_window period_value, now)

/-- One record of `stocks_cache.json`: `{'data': ..., 'info': ...,
'timestamp': ...}` (src/app.py lines 781-786); `timestamp` is optional
because `is_cache_valid` guards against entries lacking the field. -/
structure CacheEntry where
  data : List ℚ
  info : List (String × String)
  timestamp : Option ℚ
deriving DecidableEq

/-- The cache mapping, keyed by `f"{stock}_{period}"`. -/
def CacheMap : Type := List (String × CacheEntry)

instance : DecidableEq CacheMap := by
  unfold CacheMap
  infer_instance

/-- `get_cache_key` (src/app.py lines 65-67). -/
def get_cache_key (stock period : String) : String :=
  stock ++ "_" ++ period

/-- `is_cache_valid` (src/app.py lines 69-74), with `time.time()` passed in as
`now`: entries lacking the `'timestamp'` field are invalid, otherwise the
entry is valid iff `now - timestamp < CACHE_DURATION`. -/
def is_cache_valid (now : ℚ) (entry : CacheEntry) : Bool :=
  match entry.timestamp with
  | none => false
  | some t => decide (now - t < CACHE_DURATION)

/-- The cache-hit test of the series view (src/app.py line 738):
`cache_key in st.session_state.cache and is_cache_valid(...)`. -/
def cache_hit (cache : CacheMap) (now : ℚ) (key : String) : Bool :=
  match List.lookup key cache with
  | some e => is_cache_valid now e
  | none => false

/-- State of the durable cache file as seen by `load_cache`: absent, or
present with either a parsed mapping or a read/parse failure. -/
inductive FileState (α : Type) where
  | absent
  | present (content : Except String α)

/-- `load_cache` (src/app.py lines 50-58): missing file or any read/parse
error yields the empty mapping. -/
def load_cache (fs : FileState CacheMap) : CacheMap :=
  match fs with
  | FileState.absent => []
  | FileState.present (Except.error _) => []
  | FileState.present (Except.ok m) => m

/-- The cache-store step of the series view after
`fetch_stock_data_with_retry` returns `(df, error)`
(src/app.py lines 763-789): on error the frame is replaced by an empty one
(line 771), and only a non-empty frame is written to the in-memory cache and
then persisted with `save_cache` (lines 774-787).  Returns the new
`(in-memory cache, durable copy)` pair. -/
def storeAfterFetch (mem disk : CacheMap) (key : String) (df : List ℚ)
    (error : Option String) (info : List (String × String)) (now : ℚ) :
    CacheMap × CacheMap :=
  let df' := if error.isSome then [] else df
  if df'.isEmpty then (mem, disk)
  else
    let mem' : CacheMap :=
      (key, CacheEntry.mk df' info (some now))
        :: List.filter (fun p => !(p.1 == key)) mem
    (mem', mem')

/-- The per-process rate-limiter state: the wall clock and
`st.session_state.last_request_time` (src/app.py line 213-214). -/
structure AppState where
  now : ℚ
  lastRequestTime : ℚ
deriving DecidableEq

/-- The rate-limited series fetch of the individual-analysis view
(src/app.py lines 750-761): if less than `REQUEST_DELAY` elapsed since
`last_request_time`, sleep the difference; then issue the outbound call
(taking `fetchDuration`) and set `last_request_time = time.time()` after it
returns (line 761).  Returns the call start time and the new state. -/
def rate_limited_series_fetch (s : AppState) (fetchDuration : ℚ) : ℚ × AppState :=
  let elapsed := s.now - s.lastRequestTime
  let start := if elapsed < REQUEST_DELAY then s.now + (REQUEST_DELAY - elapsed) else s.now
  (start, AppState.mk (start + fetchDuration) (start + fetchDuration))

/-- The outbound call issued by `calcular_variacao` (src/app.py line 360):
`ticker.history(start, end)` is called directly, without consulting or
updating `last_request_time`.  Returns the call start time and new state. -/
def calcular_variacao_fetch (s : AppState) (fetchDuration : ℚ) : ℚ × AppState :=
  (s.now, AppState.mk (s.now + fetchDuration) s.lastRequestTime)

/-- `calcular_variacao` (src/app.py lines 353-369), as a function of the
behaviour of `ticker.history` (`history start end`, returning the close
column or raising): the window is `[now - (dias + 5) days, now]` (line
357-358), a series of at least 2 bars yields
`((last - first) / first * 100, last)` (lines 362-366), and fewer bars or
any exception yield `(none, none)` (lines 367-369). -/
def calcular_variacao (history : ℚ → ℚ → Except String (List ℚ)) (now dias : ℚ) :
    Option ℚ × Option ℚ :=
  match history (now - (dias + 5)) now with
  | Except.error _ => (none, none)
  | Except.ok closes =>
    if 2 ≤ closes.length then
      (some ((closes.getLastD 0 - closes.headD 0) / closes.headD 0 * 100),
       some (closes.getLastD 0))
    else (none, none)

/-! ## Claim theorems: cache, fallback window, variation, rate limiter -/

/-- C4: for a cache entry with a recorded timestamp `t`, the cache-hit check
of the series view holds iff `now - t < 300` seconds, and an age of exactly
300 seconds is a miss. -/
theorem c4_cache_ttl_boundary (now t : ℚ) (cache : CacheMap) (key : String)
    (e : CacheEntry) (hl : List.lookup key cache = some e)
    (ht : e.timestamp = some t) :
    (cache_hit cache now key = true ↔ now - t < CACHE_DURATION) ∧
    (now - t = CACHE_DURATION → cache_hit cache now key = false) := by
  constructor
  · simp [cache_hit, hl, is_cache_valid, ht]
  · intro h
    simp [cache_hit, hl, is_cache_valid, ht, h]

theorem c4_cache_ttl_boundary_witness :
    cache_hit [("AAPL_1d", CacheEntry.mk [] [] (some 0))] 300 "AAPL_1d" = false :=
  (c4_cache_ttl_boundary 300 0 [("AAPL_1d", CacheEntry.mk [] [] (some 0))]
    "AAPL_1d" (CacheEntry.mk [] [] (some 0)) rfl rfl).2 (by norm_num [CACHE_DURATION])

/-- C9: a cache entry lacking the `'timestamp'` field is always classified as
invalid by `is_cache_valid`, hence treated as a miss. -/
theorem c9_missing_timestamp_invalid (now : ℚ) (e : CacheEntry)
    (h : e.timestamp = none) : is_cache_valid now e = false := by
  simp [is_cache_valid, h]

theorem c9_missing_timestamp_invalid_witness :
    is_cache_valid 0 (CacheEntry.mk [] [] none) = false :=
  c9_missing_timestamp_invalid 0 _ rfl

/-- C10: when the durable cache file exists but cannot be parsed, `load_cache`
returns the empty mapping instead of propagating the failure (and a missing
file also yields the empty mapping, a parsed file its contents). -/
theorem c10_load_cache_degraded (err : String) (m : CacheMap) :
    load_cache (FileState.present (Except.error err)) = [] ∧
    load_cache FileState.absent = [] ∧
    load_cache (FileState.present (Except.ok m)) = m :=
  ⟨rfl, rfl, rfl⟩

/-- C5: a fetch that ends in failure (an error reported, or an empty frame)
never writes the cache: both the in-memory mapping and its durable copy are
exactly their prior state. -/
theorem c5_failed_fetch_preserves_cache (mem disk : CacheMap) (key : String)
    (df : List ℚ) (error : Option String) (info : List (String × String))
    (now : ℚ) (h : error.isSome = true ∨ df = []) :
    storeAfterFetch mem disk key df error info now = (mem, disk) := by
  unfold storeAfterFetch
  rcases h with h | h
  · simp [h]
  · subst h
    cases error <;> simp

theorem c5_failed_fetch_preserves_cache_witness :
    storeAfterFetch [("AAPL_1d", CacheEntry.mk [5] [] (some 10))]
        [("AAPL_1d", CacheEntry.mk [5] [] (some 10))] "AAPL_1d" [1, 2]
        (some "Erro") [] 100
      = ([("AAPL_1d", CacheEntry.mk [5] [] (some 10))],
         [("AAPL_1d", CacheEntry.mk [5] [] (some 10))]) :=
  c5_failed_fetch_preserves_cache _ _ _ _ _ _ _ (Or.inl rfl)

/-- C7: the fallback strategy's date window per period code — `7d` gives 7
days, `1mo` 30 days, `ytd` starts at January 1 of the current year, `1y` 365
days, `3y` 1095 days, `5y` 1825 days, and every other code (including `1d`)
the default 30-day window; the end of the window is always `now`. -/
theorem c7_fallback_window_mapping :
    try_alternative_download_window "7d" = FallbackStart.daysBeforeEnd 7 ∧
    try_alternative_download_window "1mo" = FallbackStart.daysBeforeEnd 30 ∧
    try_alternative_download_window "ytd" = FallbackStart.januaryFirstOfEndYear ∧
    try_alternative_download_window "1y" = FallbackStart.daysBeforeEnd 365 ∧
    try_alternative_download_window "3y" = FallbackStart.daysBeforeEnd 1095 ∧
    try_alternative_download_window "5y" = FallbackStart.daysBeforeEnd 1825 ∧
    try_alternative_download_window "1d" = FallbackStart.daysBeforeEnd 30 ∧
    (∀ s : String, s ≠ "7d" → s ≠ "1mo" → s ≠ "ytd" → s ≠ "1y" → s ≠ "3y" →
      s ≠ "5y" → try_alternative_download_window s = FallbackStart.daysBeforeEnd 30) ∧
    (∀ (now : ℚ) (p : String), (try_alternative_download_dates now p).2 = now) := by
  refine ⟨by decide, by decide, by decide, by decide, by decide, by decide, by decide,
    ?_, fun _ _ => rfl⟩
  intro s h1 h2 h3 h4 h5 h6
  simp [try_alternative_download_window, h1, h2, h3, h4, h5, h6]

theorem c7_fallback_window_mapping_witness :
    try_alternative_download_window "1d" = FallbackStart.daysBeforeEnd 30 :=
  c7_fallback_window_mapping.2.2.2.2.2.2.2.1 "1d" (by decide) (by decide)
    (by decide) (by decide) (by decide) (by decide)

/-- C8: `calcular_variacao` consults the fetched series only on the window
`[now - (dias + 5), now]`; an error or a series of fewer than 2 bars yields
`(none, none)` (in particular a 1-bar series); every series of at least 2
bars yields `((last_close - first_close) / first_close * 100, last_close)`,
and in particular closes 100 and 110 yield `(10, 110)`. -/
theorem c8_calcular_variacao_spec
    (f g : ℚ → ℚ → Except String (List ℚ)) (now dias : ℚ)
    (hfg : f (now - (dias + 5)) now = g (now - (dias + 5)) now) :
    calcular_variacao f now dias = calcular_variacao g now dias ∧
    (∀ e, f (now - (dias + 5)) now = Except.error e →
      calcular_variacao f now dias = (none, none)) ∧
    (∀ closes, f (now - (dias + 5)) now = Except.ok closes → closes.length < 2 →
      calcular_variacao f now dias = (none, none)) ∧
    (∀ c : ℚ, f (now - (dias + 5)) now = Except.ok [c] →
      calcular_variacao f now dias = (none, none)) ∧
    (∀ closes, f (now - (dias + 5)) now = Except.ok closes → 2 ≤ closes.length →
      calcular_variacao f now dias
        = (some ((closes.getLastD 0 - closes.headD 0) / closes.headD 0 * 100),
           some (closes.getLastD 0))) ∧
    (f (now - (dias + 5)) now = Except.ok [100, 110] →
      calcular_variacao f now dias = (some 10, some 110)) := by
  refine ⟨?_, ?_, ?_, ?_, ?_, ?_⟩
  · unfold calcular_variacao
    rw [hfg]
  · intro e he
    unfold calcular_variacao
    rw [he]
  · intro closes hc hlen
    unfold calcular_variacao
    rw [hc]
    have h2 : ¬ (2 ≤ closes.length) := by omega
    simp [h2]
  · intro c hc
    unfold calcular_variacao
    rw [hc]
    norm_num
  · intro closes hc hlen
    unfold calcular_variacao
    rw [hc]
    simp [hlen]
  · intro h
    unfold calcular_variacao
    rw [h]
    norm_num [List.getLastD, List.headD]

theorem c8_calcular_variacao_spec_witness :
    calcular_variacao (fun _ _ => Except.ok [100, 110]) 0 7 = (some 10, some 110) :=
  (c8_calcular_variacao_spec (fun _ _ => Except.ok [100, 110])
    (fun _ _ => Except.ok [100, 110]) 0 7 rfl).2.2.2.2.2 rfl

/-- C6 (amended): only the series fetch of the individual-analysis view is
rate limited — two consecutive rate-limited series fetches start at least
`REQUEST_DELAY` apart however much idle time passes between them, while the
outbound call of `calcular_variacao` starts immediately and neither reads nor
writes `last_request_time`, so nothing enforces spacing for it. -/
theorem c6_rate_limiter_scope (s : AppState) (d1 d2 idle : ℚ)
    (hd1 : 0 ≤ d1) (hidle : 0 ≤ idle) :
    REQUEST_DELAY ≤
      (rate_limited_series_fetch
        (AppState.mk ((rate_limited_series_fetch s d1).2.now + idle)
          (rate_limited_series_fetch s d1).2.lastRequestTime) d2).1
        - (rate_limited_series_fetch s d1).1 ∧
    (calcular_variacao_fetch s d1).1 = s.now ∧
    (calcular_variacao_fetch s d1).2.lastRequestTime = s.lastRequestTime := by
  refine ⟨?_, rfl, rfl⟩
  simp only [rate_limited_series_fetch, REQUEST_DELAY]
  split_ifs <;> linarith

theorem c6_rate_limiter_scope_witness :
    REQUEST_DELAY ≤
      (rate_limited_series_fetch
        (AppState.mk ((rate_limited_series_fetch (AppState.mk 0 0) 0).2.now + 0)
          (rate_limited_series_fetch (AppState.mk 0 0) 0).2.lastRequestTime) 0).1
        - (rate_limited_series_fetch (AppState.mk 0 0) 0).1 ∧
    (calcular_variacao_fetch (AppState.mk 0 0) 0).1 = (AppState.mk (0 : ℚ) 0).now ∧
    (calcular_variacao_fetch (AppState.mk 0 0) 0).2.lastRequestTime
      = (AppState.mk (0 : ℚ) 0).lastRequestTime :=
  c6_rate_limiter_scope (AppState.mk 0 0) 0 0 0 le_rfl le_rfl

/-- C6 counterexample: two back-to-back `calcular_variacao` outbound calls
both start at time 100 — a gap of 0, below `REQUEST_DELAY`; the claimed
spacing does not cover variation calculations. -/
theorem c6_variacao_unspaced_counterexample :
    (calcular_variacao_fetch (AppState.mk 100 0) 0).1 = 100 ∧
    (calcular_variacao_fetch ((calcular_variacao_fetch (AppState.mk 100 0) 0).2) 0).1
      = 100 ∧
    ¬ (REQUEST_DELAY ≤ (100 : ℚ) - 100) := by
  refine ⟨rfl, ?_, by norm_num [REQUEST_DELAY]⟩
  norm_num [calcular_variacao_fetch]

/-! ## Claim C1: exhaustion with always-empty strategies -/

lemma c1go (p : ℕ → PrimOutcome) (a : ℕ → AltOutcome) (m : ℕ)
    (hp : ∀ n, p n = PrimOutcome.ok []) (ha : ∀ n, (a n).df = []) :
    ∀ fuel attempt, 1 ≤ attempt → attempt + fuel = m →
      (fetchGo p a m attempt fuel).2 = ([], some exhaustedMsg) ∧
      (fetchGo p a m attempt fuel).1.filter isPrimEv
        = (List.range' attempt fuel).map Ev.primary ∧
      (fetchGo p a m attempt fuel).1.filter isAltEv
        = if 1 ≤ fuel then [Ev.alt (m - 1)] else [] := by
  intro fuel
  induction fuel with
  | zero =>
    intro attempt h1 h2
    refine ⟨rfl, rfl, ?_⟩
    simp [fetchGo]
  | succ f ih =>
    intro attempt h1 h2
    have hpos : 0 < attempt := h1
    by_cases hlast : attempt = m - 1
    · have hf : f = 0 := by omega
      subst hf
      have h1m : 1 < m := by omega
      refine ⟨?_, ?_, ?_⟩ <;>
        simp [fetchGo, hp, ha, hlast, h1m, altEvents, List.filter_append,
          List.filter, isPrimEv, isAltEv, List.range'_succ, List.range']
    · have hf : 1 ≤ f := by omega
      have hf1 : 1 ≤ f + 1 := by omega
      obtain ⟨ihr, ihp, iha⟩ := ih (attempt + 1) (by omega) (by omega)
      have hcond : ¬ (attempt = 0 ∨ attempt = m - 1) := by omega
      refine ⟨?_, ?_, ?_⟩
      · simp [fetchGo, hp attempt, hcond, ihr]
      · simp [fetchGo, hp attempt, hcond, List.filter_append, List.filter,
          isPrimEv, hpos, ihp, List.range'_succ]
      · simp [fetchGo, hp attempt, hcond, List.filter_append, List.filter,
          isAltEv, hpos, iha, hf, hf1]

/-- C1: with a primary strategy that always returns an empty frame without
erroring and a secondary strategy that always returns an empty frame,
`fetch_stock_data_with_retry` ends in failure (empty frame plus the
exhaustion diagnostic) after exactly `maxRetries` primary attempts
(`maxRetries ≥ 2`, default 3), and the secondary strategy is invoked exactly
twice: once during attempt 0 and once during attempt `maxRetries - 1`. -/
theorem c1_exhaustion_terminal_failure (p : ℕ → PrimOutcome) (a : ℕ → AltOutcome)
    (m : ℕ) (hp : ∀ n, p n = PrimOutcome.ok []) (ha : ∀ n, (a n).df = [])
    (hm : 2 ≤ m) :
    (fetch_stock_data_with_retry p a m).2 = ([], some exhaustedMsg) ∧
    ((fetch_stock_data_with_retry p a m).1.filter isPrimEv).length = m ∧
    (fetch_stock_data_with_retry p a m).1.filter isAltEv
      = [Ev.alt 0, Ev.alt (m - 1)] := by
  obtain ⟨m', rfl⟩ : ∃ m', m = m' + 1 := ⟨m - 1, by omega⟩
  have hm' : 1 ≤ m' := by omega
  obtain ⟨ihr, ihp, iha⟩ := c1go p a (m' + 1) hp ha m' 1 le_rfl (by omega)
  unfold fetch_stock_data_with_retry
  refine ⟨?_, ?_, ?_⟩
  · simp [fetchGo, hp 0, ha 0, ihr]
  · simp [fetchGo, hp 0, ha 0, altEvents, List.filter_append, List.filter,
      isPrimEv, ihp, List.length_range']
  · simp [fetchGo, hp 0, ha 0, altEvents, List.filter_append, List.filter,
      isAltEv, iha, hm']

theorem c1_exhaustion_terminal_failure_witness :
    (fetch_stock_data_with_retry (fun _ => PrimOutcome.ok [])
        (fun _ => AltOutcome.mk [] none) 3).2 = ([], some exhaustedMsg) ∧
    ((fetch_stock_data_with_retry (fun _ => PrimOutcome.ok [])
        (fun _ => AltOutcome.mk [] none) 3).1.filter isPrimEv).length = 3 ∧
    (fetch_stock_data_with_retry (fun _ => PrimOutcome.ok [])
        (fun _ => AltOutcome.mk [] none) 3).1.filter isAltEv
      = [Ev.alt 0, Ev.alt (3 - 1)] :=
  c1_exhaustion_terminal_failure (fun _ => PrimOutcome.ok [])
    (fun _ => AltOutcome.mk [] none) 3 (fun _ => rfl) (fun _ => rfl) (by norm_num)

/-! ## Claim C2: backoff schedule for deterministically failing primaries -/

lemma getElem_range'_map {α : Type} (w : ℕ → α) :
    ∀ (len s i : ℕ), i < len → ((List.range' s len).map w)[i]? = some (w (s + i)) := by
  intro len
  induction len with
  | zero => intro s i h; omega
  | succ L ih =>
    intro s i h
    rw [List.range'_succ]
    cases i with
    | zero => simp
    | succ j =>
      simp only [List.map_cons, List.getElem?_cons_succ]
      rw [ih (s + 1) j (by omega)]
      have hsj : s + 1 + j = s + (j + 1) := by omega
      rw [hsj]

lemma c2go_generic (a : ℕ → AltOutcome) (m : ℕ) (msg : String)
    (hauth : isAuthErr msg = false) (hrate : isRateErr msg = false) :
    ∀ fuel attempt (acc : ℚ), 1 ≤ attempt → 1 ≤ fuel → attempt + fuel = m →
      waits (fetchGo (fun _ => PrimOutcome.exn msg) a m attempt fuel).1 acc
        = (acc + REQUEST_DELAY * 2 ^ attempt)
            :: (List.range' (attempt + 1) (fuel - 1)).map
                 (fun k => REQUEST_DELAY * 2 ^ k) := by
  intro fuel
  induction fuel with
  | zero => intro attempt acc h1 h0 h2; omega
  | succ f ih =>
    intro attempt acc h1 h0 h2
    have hpos : 0 < attempt := h1
    by_cases hlt : attempt < m - 1
    · obtain ⟨f', rfl⟩ : ∃ f', f = f' + 1 := ⟨f - 1, by omega⟩
      rw [show waits (fetchGo (fun _ => PrimOutcome.exn msg) a m attempt
            (f' + 1 + 1)).1 acc
          = (acc + REQUEST_DELAY * 2 ^ attempt)
              :: waits (fetchGo (fun _ => PrimOutcome.exn msg) a m (attempt + 1)
                   (f' + 1)).1 0 by
        simp [fetchGo, hauth, hrate, hlt, hpos, waits]]
      rw [ih (attempt + 1) 0 (by omega) (by omega) (by omega)]
      simp [List.range'_succ]
    · have hf : f = 0 := by omega
      subst hf
      simp [fetchGo, hauth, hrate, hlt, hpos, waits]

lemma c2_generic_waits (a : ℕ → AltOutcome) (m : ℕ) (msg : String)
    (hauth : isAuthErr msg = false) (hrate : isRateErr msg = false) (hm : 2 ≤ m) :
    waits (fetch_stock_data_with_retry (fun _ => PrimOutcome.exn msg) a m).1 0
      = 0 :: (List.range' 1 (m - 1)).map (fun k => REQUEST_DELAY * 2 ^ k) := by
  obtain ⟨m', rfl⟩ : ∃ m', m = m' + 1 := ⟨m - 1, by omega⟩
  have hm0 : 0 < m' := by omega
  unfold fetch_stock_data_with_retry
  rw [show waits (fetchGo (fun _ => PrimOutcome.exn msg) a (m' + 1) 0 (m' + 1)).1 0
      = 0 :: waits (fetchGo (fun _ => PrimOutcome.exn msg) a (m' + 1) 1 m').1 0 by
    simp [fetchGo, hauth, hrate, hm0, waits]]
  rw [c2go_generic a (m' + 1) msg hauth hrate m' 1 0 le_rfl (by omega) (by omega)]
  obtain ⟨m'', rfl⟩ : ∃ m'', m' = m'' + 1 := ⟨m' - 1, by omega⟩
  simp [List.range'_succ]

lemma c2go_rate (a : ℕ → AltOutcome) (m : ℕ) (msg : String)
    (hauth : isAuthErr msg = false) (hrate : isRateErr msg = true) :
    ∀ fuel attempt (acc : ℚ), 1 ≤ attempt → 1 ≤ fuel → attempt + fuel = m →
      waits (fetchGo (fun _ => PrimOutcome.exn msg) a m attempt fuel).1 acc
        = (acc + REQUEST_DELAY * 2 ^ attempt)
            :: (List.range' (attempt + 1) (fuel - 1)).map
                 (fun k => REQUEST_DELAY * 2 ^ (k + 1) + REQUEST_DELAY * 2 ^ k) := by
  intro fuel
  induction fuel with
  | zero => intro attempt acc h1 h0 h2; omega
  | succ f ih =>
    intro attempt acc h1 h0 h2
    have hpos : 0 < attempt := h1
    by_cases hlt : attempt < m - 1
    · obtain ⟨f', rfl⟩ : ∃ f', f = f' + 1 := ⟨f - 1, by omega⟩
      rw [show waits (fetchGo (fun _ => PrimOutcome.exn msg) a m attempt
            (f' + 1 + 1)).1 acc
          = (acc + REQUEST_DELAY * 2 ^ attempt)
              :: waits (fetchGo (fun _ => PrimOutcome.exn msg) a m (attempt + 1)
                   (f' + 1)).1 (0 + REQUEST_DELAY * 2 ^ (attempt + 2)) by
        simp [fetchGo, hauth, hrate, hlt, hpos, waits]]
      rw [ih (attempt + 1) (0 + REQUEST_DELAY * 2 ^ (attempt + 2)) (by omega)
        (by omega) (by omega)]
      simp [List.range'_succ]
    · have hf : f = 0 := by omega
      subst hf
      simp [fetchGo, hauth, hrate, hlt, hpos, waits]

lemma c2_rate_waits (a : ℕ → AltOutcome) (m : ℕ) (msg : String)
    (hauth : isAuthErr msg = false) (hrate : isRateErr msg = true) (hm : 2 ≤ m) :
    waits (fetch_stock_data_with_retry (fun _ => PrimOutcome.exn msg) a m).1 0
      = 0 :: (List.range' 1 (m - 1)).map
          (fun k => REQUEST_DELAY * 2 ^ (k + 1) + REQUEST_DELAY * 2 ^ k) := by
  obtain ⟨m', rfl⟩ : ∃ m', m = m' + 1 := ⟨m - 1, by omega⟩
  have hm0 : 0 < m' := by omega
  unfold fetch_stock_data_with_retry
  rw [show waits (fetchGo (fun _ => PrimOutcome.exn msg) a (m' + 1) 0 (m' + 1)).1 0
      = 0 :: waits (fetchGo (fun _ => PrimOutcome.exn msg) a (m' + 1) 1 m').1
          (0 + REQUEST_DELAY * 2 ^ (0 + 2)) by
    simp [fetchGo, hauth, hrate, hm0, waits]]
  rw [c2go_rate a (m' + 1) msg hauth hrate m' 1 (0 + REQUEST_DELAY * 2 ^ (0 + 2))
    le_rfl (by omega) (by omega)]
  obtain ⟨m'', rfl⟩ : ∃ m'', m' = m'' + 1 := ⟨m' - 1, by omega⟩
  simp [List.range'_succ]

/-- C2 (amended): for a primary strategy failing deterministically with a
generic-class message, the total wait before primary attempt `n` (`n ≥ 1`)
equals `REQUEST_DELAY * 2^n` — as the claim states; but for a rate-limit
classified failure the total wait before primary attempt `n` equals
`REQUEST_DELAY * 2^(n+1) + REQUEST_DELAY * 2^n`: the steeper 429 sleep
`REQUEST_DELAY * 2^((n-1)+2)` of the failed attempt `n - 1` is followed by the
ordinary backoff sleep `REQUEST_DELAY * 2^n` at the top of the next iteration,
not replaced by it. -/
theorem c2_backoff_schedule (a : ℕ → AltOutcome) (g r : String) (m n : ℕ)
    (hg1 : isAuthErr g = false) (hg2 : isRateErr g = false)
    (hr1 : isAuthErr r = false) (hr2 : isRateErr r = true)
    (h1 : 1 ≤ n) (h2 : n < m) :
    (waits (fetch_stock_data_with_retry (fun _ => PrimOutcome.exn g) a m).1 0)[n]?
      = some (REQUEST_DELAY * 2 ^ n) ∧
    (waits (fetch_stock_data_with_retry (fun _ => PrimOutcome.exn r) a m).1 0)[n]?
      = some (REQUEST_DELAY * 2 ^ (n + 1) + REQUEST_DELAY * 2 ^ n) := by
  have hm : 2 ≤ m := by omega
  obtain ⟨j, rfl⟩ : ∃ j, n = j + 1 := ⟨n - 1, by omega⟩
  have hj : j < m - 1 := by omega
  have hadd : 1 + j = j + 1 := by omega
  constructor
  · rw [c2_generic_waits a m g hg1 hg2 hm, List.getElem?_cons_succ,
      getElem_range'_map _ (m - 1) 1 j hj, hadd]
  · rw [c2_rate_waits a m r hr1 hr2 hm, List.getElem?_cons_succ,
      getElem_range'_map _ (m - 1) 1 j hj, hadd]

theorem c2_backoff_schedule_witness :
    (waits (fetch_stock_data_with_retry (fun _ => PrimOutcome.exn "boom")
        (fun _ => AltOutcome.mk [] none) 3).1 0)[1]?
      = some (REQUEST_DELAY * 2 ^ 1) ∧
    (waits (fetch_stock_data_with_retry (fun _ => PrimOutcome.exn "429")
        (fun _ => AltOutcome.mk [] none) 3).1 0)[1]?
      = some (REQUEST_DELAY * 2 ^ (1 + 1) + REQUEST_DELAY * 2 ^ 1) :=
  c2_backoff_schedule (fun _ => AltOutcome.mk [] none) "boom" "429" 3 1
    (by decide) (by decide) (by decide) (by decide) (by norm_num) (by norm_num)

/-- C2 counterexample: with a primary strategy that always raises `"429"`
(rate-limit class) and `max_retries = 3`, the total wait before primary
attempt 1 is 12 seconds — the 429 sleep `REQUEST_DELAY * 2^2 = 8` of failed
attempt 0 plus the ordinary backoff `REQUEST_DELAY * 2^1 = 4` of attempt 1 —
not `REQUEST_DELAY * 2^(0+2) = 8` as the claim states. -/
theorem c2_backoff_schedule_counterexample :
    waits (fetch_stock_data_with_retry (fun _ => PrimOutcome.exn "429")
        (fun _ => AltOutcome.mk [] none) 3).1 0 = [0, 12, 24] ∧
    (12 : ℚ) ≠ REQUEST_DELAY * 2 ^ (0 + 2) := by
  constructor
  · rw [c2_rate_waits (fun _ => AltOutcome.mk [] none) 3 "429" (by decide)
      (by decide) (by norm_num)]
    norm_num [List.range'_succ, List.range', REQUEST_DELAY]
  · norm_num [REQUEST_DELAY]

/-! ## Claim C3: auth-classified failures and the fallback -/

lemma c3go_immediate (p : ℕ → PrimOutcome) (a : ℕ → AltOutcome) (m : ℕ)
    (msg : String) (hp : ∀ n, p n = PrimOutcome.exn msg)
    (hauth : isAuthErr msg = true) :
    ∀ fuel attempt n, Ev.primary n ∈ (fetchGo p a m attempt fuel).1 →
      ∃ pre post, (fetchGo p a m attempt fuel).1
        = pre ++ Ev.primary n :: altEvents n ++ post := by
  intro fuel
  induction fuel with
  | zero =>
    intro attempt n h
    simp [fetchGo] at h
  | succ f ih =>
    intro attempt n h
    have htr : ∃ tail, ((fetchGo p a m attempt (f + 1)).1
        = (if 0 < attempt then [Ev.sleep (REQUEST_DELAY * 2 ^ attempt)] else [])
          ++ Ev.primary attempt :: altEvents attempt ++ tail)
        ∧ (tail = [] ∨ tail = (fetchGo p a m (attempt + 1) f).1) := by
      by_cases hempty : (a attempt).df.isEmpty = true
      · by_cases hlt : attempt < m - 1
        · exact ⟨(fetchGo p a m (attempt + 1) f).1,
            by simp [fetchGo, hp, hauth, hempty, hlt, altEvents], Or.inr rfl⟩
        · exact ⟨[], by simp [fetchGo, hp, hauth, hempty, hlt, altEvents], Or.inl rfl⟩
      · exact ⟨[], by simp [fetchGo, hp, hauth, hempty, altEvents], Or.inl rfl⟩
    obtain ⟨tail, htr, htail⟩ := htr
    rw [htr] at h ⊢
    rcases htail with rfl | rfl
    · have hn : n = attempt := by
        by_cases hpos : 0 < attempt <;> simp [hpos, altEvents] at h <;> exact h
      subst hn
      exact ⟨if 0 < n then [Ev.sleep (REQUEST_DELAY * 2 ^ n)] else [], [], rfl⟩
    · have h' : n = attempt ∨ Ev.primary n ∈ (fetchGo p a m (attempt + 1) f).1 := by
        by_cases hpos : 0 < attempt <;> simp [hpos, altEvents] at h <;> exact h
      rcases h' with rfl | hmem
      · exact ⟨if 0 < n then [Ev.sleep (REQUEST_DELAY * 2 ^ n)] else [],
          (fetchGo p a m (n + 1) f).1, rfl⟩
      · obtain ⟨pre', post', heq⟩ := ih (attempt + 1) n hmem
        refine ⟨((if 0 < attempt then [Ev.sleep (REQUEST_DELAY * 2 ^ attempt)] else [])
          ++ Ev.primary attempt :: altEvents attempt) ++ pre', post', ?_⟩
        rw [heq]
        simp [List.append_assoc]

lemma c3go_result (p : ℕ → PrimOutcome) (a : ℕ → AltOutcome) (m : ℕ)
    (msg : String) (hp : ∀ n, p n = PrimOutcome.exn msg)
    (hauth : isAuthErr msg = true) (ha : ∀ k, (a k).df = []) :
    ∀ fuel attempt, 1 ≤ fuel → attempt + fuel = m →
      (fetchGo p a m attempt fuel).2 = ([], some (errAfter m msg)) := by
  intro fuel
  induction fuel with
  | zero => intro attempt h0 h2; omega
  | succ f ih =>
    intro attempt h0 h2
    by_cases hlt : attempt < m - 1
    · have hf : 1 ≤ f := by omega
      rw [show (fetchGo p a m attempt (f + 1)).2
          = (fetchGo p a m (attempt + 1) f).2 by
        simp [fetchGo, hp, hauth, ha, hlt]]
      exact ih (attempt + 1) hf (by omega)
    · simp [fetchGo, hp, hauth, ha, hlt]

/-- C3 (amended): with a primary strategy that always raises an auth-class
error (message containing `"Crumb"` or `"Unauthorized"`), every primary call
in the trace is immediately followed by the secondary-strategy invocation —
no backoff sleep occurs between the failing primary call and the fallback;
but when the fallback also fails on the last attempt, the surfaced diagnostic
is built from the primary strategy's error message
(`"Erro após N tentativas: <primary msg>"`) — the fallback's own error
message is discarded, not surfaced. -/
theorem c3_auth_error_fallback (p : ℕ → PrimOutcome) (a : ℕ → AltOutcome)
    (m : ℕ) (msg : String) (hp : ∀ n, p n = PrimOutcome.exn msg)
    (hauth : isAuthErr msg = true) (hm : 1 ≤ m) :
    (∀ n, Ev.primary n ∈ (fetch_stock_data_with_retry p a m).1 →
      ∃ pre post, (fetch_stock_data_with_retry p a m).1
        = pre ++ Ev.primary n :: altEvents n ++ post) ∧
    ((∀ k, (a k).df = []) →
      (fetch_stock_data_with_retry p a m).2 = ([], some (errAfter m msg))) := by
  constructor
  · intro n h
    exact c3go_immediate p a m msg hp hauth m 0 n h
  · intro ha
    exact c3go_result p a m msg hp hauth ha m 0 hm (by omega)

theorem c3_auth_error_fallback_witness :
    (fetch_stock_data_with_retry (fun _ => PrimOutcome.exn "Crumb")
        (fun _ => AltOutcome.mk [] (some "x")) 3).2
      = ([], some (errAfter 3 "Crumb")) :=
  (c3_auth_error_fallback (fun _ => PrimOutcome.exn "Crumb")
    (fun _ => AltOutcome.mk [] (some "x")) 3 "Crumb" (fun _ => rfl) (by decide)
    (by norm_num)).2 (fun _ => rfl)

/-- C3 counterexample: primary always raises `"Crumb error A"`, the fallback
always fails with error `"fallback boom"`; on exhaustion the surfaced message
is `"Erro após 3 tentativas: Crumb error A"` — built from the primary error —
and does not contain the fallback's error message, contradicting the claim
that the fallback's error is surfaced. -/
theorem c3_fallback_error_discarded_counterexample :
    (fetch_stock_data_with_retry (fun _ => PrimOutcome.exn "Crumb error A")
        (fun _ => AltOutcome.mk [] (some "fallback boom")) 3).2
      = ([], some "Erro após 3 tentativas: Crumb error A") ∧
    containsSub "Erro após 3 tentativas: Crumb error A" "fallback boom" = false := by
  constructor
  · decide
  · decide
